import Mathlib

/-!
Verification development for the bossypaints volume materialization engine.

The definitions below are a shallow embedding of
src/server/bossypaints/renderer.py (class NumpyInMemoryVolumePolygonRenderer,
method _materialize_xyz_volume), src/server/bossypaints/checkpoints.py
(Polygon, Checkpoint, Polygon.model_post_init) and
src/server/bossypaints/tasks.py (TaskInDB).

Modelling conventions:
* Python floats are modelled as rationals (ℚ); all coordinate arithmetic in
  the renderer is exact real-valued arithmetic on those values.
* numpy arrays of pixel coordinates are modelled as lists of integers, and
  the voxel grid as a structure holding its dimensions and a total function
  from indices to values.  volume[cc, rr, z] = v (fancy-indexed assignment
  with a constant right-hand side) is modelled as a left fold of single-pixel
  updates.
* segmentID is modelled as ℕ: the output dtype is uint64 and the data model
  treats 0 as the reserved "no label" value.
* The two run-time failures the Python code can hit are modelled in the
  Except result of materialize_xyz_volume:
  (1) np.zeros raises for a negative dimension, i.e. exactly when some
      *_max - *_min < 0;
  (2) the fancy-indexed assignment raises IndexError exactly when the index
      arrays are nonempty and the x or y extent is zero: np.clip(v, 0, s-1)
      lands in [0, s-1] (a valid index) whenever s >= 1, and equals -1 (an
      invalid index for a size-0 axis) when s = 0; empty index arrays never
      raise.  The z index has already been range-checked, and the channel
      index ids.index(segmentID) is always in range.
  Python raises at the first offending write; we model only whether the call
  fails, not which polygon triggered it, so the check is hoisted in front of
  the pure grid fold.
-/

namespace BossyPaints

/-- Polygon record from checkpoints.py.  Field order and names follow the
pydantic model; rings are lists of (x, y) vertices.  pydantic guarantees each
vertex parses as a 2-tuple of floats, so rings are typed as lists of pairs. -/
structure Polygon where
  points : List (ℚ × ℚ)
  holes : List (List (ℚ × ℚ))
  positiveRegions : List (List (ℚ × ℚ))
  negativeRegions : List (List (ℚ × ℚ))
  editing : Bool
  segmentID : Nat
  color : Option (List Nat)
  z : Int
deriving DecidableEq

/-- Polygon.model_post_init from checkpoints.py: the four sequential
compatibility updates between the legacy points/holes fields and the new
positiveRegions/negativeRegions fields.  Python truthiness of a list is
nonemptiness.  The redundant inner length check before positiveRegions[0]
is subsumed by headD. -/
def model_post_init (p0 : Polygon) : Polygon :=
  let p1 := if p0.positiveRegions ≠ [] ∧ p0.points = [] then
      { p0 with points := p0.positiveRegions.headD [] } else p0
  let p2 := if p1.negativeRegions ≠ [] ∧ p1.holes = [] then
      { p1 with holes := p1.negativeRegions } else p1
  let p3 := if p2.points ≠ [] ∧ p2.positiveRegions = [] then
      { p2 with positiveRegions := [p2.points] } else p2
  if p3.holes ≠ [] ∧ p3.negativeRegions = [] then
    { p3 with negativeRegions := p3.holes } else p3

/-- Checkpoint record from checkpoints.py. -/
structure Checkpoint where
  polygons : List Polygon
  taskID : String

/-- TaskInDB record from tasks.py (Task plus its id). -/
structure TaskInDB where
  collection : String
  experiment : String
  channel : String
  resolution : Int
  x_min : Int
  x_max : Int
  y_min : Int
  y_max : Int
  z_min : Int
  z_max : Int
  priority : Int
  destination_collection : Option String
  destination_experiment : Option String
  destination_channel : Option String
  id : String

/-- Minimum of a list of rationals (numpy .min(); only used on nonempty
lists, the renderer checks len >= 3 first). -/
def qMin : List ℚ → ℚ
  | [] => 0
  | x :: xs => xs.foldl min x

/-- Maximum of a list of rationals (numpy .max(); only used on nonempty
lists). -/
def qMax : List ℚ → ℚ
  | [] => 0
  | x :: xs => xs.foldl max x

/-- Inclusive integer range [lo, hi], empty when hi < lo. -/
def intRange (lo hi : Int) : List Int :=
  (List.range (hi + 1 - lo).toNat).map (fun i => lo + (i : Int))

/-- Modelled from the spec: one edge test of the even-odd crossing rule used
by the RegionRasterizer (the repository delegates scan-conversion to the
external skimage.draw.polygon, which is not part of src/).  The edge from a
to b toggles the parity at test point (cx, ry) when the edge spans the
horizontal line through ry and the crossing lies strictly to the right of
cx. -/
def edgeCrosses (cx ry : ℚ) (a b : ℚ × ℚ) : Bool :=
  (decide (ry < a.2) != decide (ry < b.2)) &&
    decide (cx < (b.1 - a.1) * (ry - a.2) / (b.2 - a.2) + a.1)

/-- Modelled from the spec: even-odd membership of the point (cx, ry) in the
implicitly closed ring (RegionRasterizer fill rule). -/
def insideRing (cx ry : ℚ) (ring : List (ℚ × ℚ)) : Bool :=
  (ring.zip (ring.rotate 1)).foldl
    (fun inside e => if edgeCrosses cx ry e.1 e.2 then !inside else inside) false

/-- Modelled from the spec: RegionRasterizer / skimage.draw.polygon with no
shape argument.  Takes the row (y) coordinates and column (x) coordinates of
the ring's vertices and returns the (row, col) integer pixels of the ring's
interior, scanning the bounding box clipped below at 0 row-major, under the
even-odd rule. -/
def polygonRaster (rs cs : List ℚ) : List (Int × Int) :=
  let rlo : Int := max 0 ⌊qMin rs⌋
  let rhi : Int := ⌈qMax rs⌉
  let clo : Int := max 0 ⌊qMin cs⌋
  let chi : Int := ⌈qMax cs⌉
  let ring := cs.zip rs
  (intRange rlo rhi).flatMap (fun r : Int =>
    (intRange clo chi).filterMap (fun c : Int =>
      if insideRing (c : ℚ) (r : ℚ) ring then some (r, c) else none))

/-- resolution_factor = 2 ** task.resolution (renderer.py line 47); exact
rational power, also for negative resolution levels. -/
def resolutionFactor (t : TaskInDB) : ℚ := (2 : ℚ) ^ t.resolution

/-- points_scaled = points / resolution_factor (renderer.py line 67). -/
def scaleRing (factor : ℚ) (ring : List (ℚ × ℚ)) : List (ℚ × ℚ) :=
  ring.map fun p => (p.1 / factor, p.2 / factor)

/-- points_offset[:, 0] -= task.x_min (renderer.py line 69). -/
def offsetRingX (xmin : ℚ) (ring : List (ℚ × ℚ)) : List (ℚ × ℚ) :=
  ring.map fun p => (p.1 - xmin, p.2)

/-- points_offset[:, 1] -= task.y_min (renderer.py line 70). -/
def offsetRingY (ymin : ℚ) (ring : List (ℚ × ℚ)) : List (ℚ × ℚ) :=
  ring.map fun p => (p.1, p.2 - ymin)

/-- The volume-local ring the renderer rasterizes: scale by the resolution
factor, then shift column 0 by x_min and column 1 by y_min (renderer.py
lines 66 to 70 and 91 to 95; positive and negative regions use the same
transformation). -/
def transformRing (t : TaskInDB) (ring : List (ℚ × ℚ)) : List (ℚ × ℚ) :=
  offsetRingY (t.y_min : ℚ) (offsetRingX (t.x_min : ℚ)
    (scaleRing (resolutionFactor t) ring))

/-- rr, cc = polygon(points_offset[:, 1], points_offset[:, 0]) (renderer.py
line 75): rasterize a ring after transformation, rows from the y column and
columns from the x column. -/
def regionPixels (t : TaskInDB) (ring : List (ℚ × ℚ)) : List (Int × Int) :=
  let pts := transformRing t ring
  polygonRaster (pts.map Prod.snd) (pts.map Prod.fst)

/-- np.clip(v, lo, hi) = min(hi, max(lo, v)). -/
def npClip (lo hi v : Int) : Int := min hi (max lo v)

/-- rr = np.clip(rr, 0, y_size - 1); cc = np.clip(cc, 0, x_size - 1)
(renderer.py lines 76 to 77 and 98 to 99), as one map over (row, col)
pairs. -/
def clampPixels (xSize ySize : Int) (px : List (Int × Int)) : List (Int × Int) :=
  px.map fun q => (npClip 0 (ySize - 1) q.1, npClip 0 (xSize - 1) q.2)

/-- The renderer's well-formedness gate for one ring: points.ndim == 2 and
len(points) >= 3 (renderer.py lines 63 and 88).  For rings that typed as
lists of coordinate pairs, ndim is 2 exactly when the ring is nonempty, which
is subsumed by the length test. -/
def ringValid (ring : List (ℚ × ℚ)) : Bool := decide (3 ≤ ring.length)

/-- The materialized output: either the 3D single-channel grid
(channelCount = none, data read at channel 0) or the 4D channel-mode grid
(channelCount = some id_count). -/
structure Grid where
  xSize : Int
  ySize : Int
  zSize : Int
  channelCount : Option Nat
  data : Int → Int → Int → Nat → Nat

/-- np.zeros(...): the freshly allocated all-zero grid (renderer.py
line 42). -/
def initGrid (t : TaskInDB) (idCount : Nat) (asChannels : Bool) : Grid :=
  { xSize := t.x_max - t.x_min
    ySize := t.y_max - t.y_min
    zSize := t.z_max - t.z_min
    channelCount := if asChannels then some idCount else none
    data := fun _ _ _ _ => 0 }

/-- One element of the fancy-indexed assignment volume[cc, rr, z, chan] = v:
q is a (row, col) pair, written at x = col, y = row. -/
def writePixel (chan v : Nat) (z : Int) (g : Grid) (q : Int × Int) : Grid :=
  { g with data := fun x y z2 c =>
      if x = q.2 ∧ y = q.1 ∧ z2 = z ∧ c = chan then v else g.data x y z2 c }

/-- volume[cc, rr, z(, chan)] = v for a whole pixel list (all writes carry
the same value, so the fold order is immaterial). -/
def writePixels (chan v : Nat) (z : Int) (px : List (Int × Int)) (g : Grid) : Grid :=
  px.foldl (writePixel chan v z) g

/-- The loop over one polygon's region list (either the positive regions
writing segmentID, or the negative regions writing 0): invalid rings are
skipped, valid rings are transformed, rasterized, clamped and written
(renderer.py lines 61 to 83 and 86 to 105). -/
def applyRegions (t : TaskInDB) (chan v : Nat) (z : Int)
    (regs : List (List (ℚ × ℚ))) (g : Grid) : Grid :=
  regs.foldl (fun g2 ring =>
    if ringValid ring then
      writePixels chan v z
        (clampPixels (t.x_max - t.x_min) (t.y_max - t.y_min) (regionPixels t ring)) g2
    else g2) g

/-- The body of the per-polygon loop (renderer.py lines 51 to 105): skip the
polygon when its local slice index z - z_min is outside [0, z_size), else
write all positive regions with segmentID and then clear all negative
regions to 0.  In channel mode the channel is ids.index(segmentID), else the
single channel 0. -/
def applyPolygon (t : TaskInDB) (ids : List Nat) (asChannels : Bool)
    (g : Grid) (p : Polygon) : Grid :=
  let z := p.z - t.z_min
  if z < 0 ∨ t.z_max - t.z_min ≤ z then g
  else
    let chan := if asChannels then ids.indexOf p.segmentID else 0
    let g1 := applyRegions t chan p.segmentID z p.positiveRegions g
    applyRegions t chan 0 z p.negativeRegions g1

/-- All polygons of all checkpoints, in checkpoint order then polygon
order. -/
def allPolygons (cps : List Checkpoint) : List Polygon :=
  cps.foldr (fun cp acc => cp.polygons ++ acc) []

/-- ids = sorted(set(poly.segmentID for checkpoint in checkpoints for poly in
checkpoint.polygons)) (renderer.py line 38): the distinct segment IDs in
ascending order. -/
def segmentIds (cps : List Checkpoint) : List Nat :=
  (((allPolygons cps).map Polygon.segmentID).insertionSort (· ≤ ·)).dedup

/-- The pure double loop of _materialize_xyz_volume: checkpoints in order,
polygons within a checkpoint in order, starting from the zero grid. -/
def materializeGrid (t : TaskInDB) (cps : List Checkpoint) (asChannels : Bool) : Grid :=
  let ids := segmentIds cps
  cps.foldl (fun g cp => cp.polygons.foldl (applyPolygon t ids asChannels) g)
    (initGrid t ids.length asChannels)

/-- True when the renderer reaches at least one nonempty fancy-indexed write
for this polygon: its slice is in range and some valid ring rasterizes to a
nonempty pixel list. -/
def polygonHasPixels (t : TaskInDB) (p : Polygon) : Bool :=
  (decide (0 ≤ p.z - t.z_min) && decide (p.z - t.z_min < t.z_max - t.z_min)) &&
    ((p.positiveRegions ++ p.negativeRegions).any fun ring =>
      ringValid ring && !(regionPixels t ring).isEmpty)

/-- The IndexError condition of the numpy writes: a nonempty pixel batch is
written while the x or y extent is zero, so the clipped index -1 is out of
range for a size-0 axis. -/
def indexFailure (t : TaskInDB) (cps : List Checkpoint) : Bool :=
  (decide (t.x_max - t.x_min = 0) || decide (t.y_max - t.y_min = 0)) &&
    (allPolygons cps).any (polygonHasPixels t)

/-- _materialize_xyz_volume (renderer.py lines 25 to 107).  The Except layer
records the two failure modes described in the file header; otherwise the
result is the pure grid fold. -/
def materialize_xyz_volume (t : TaskInDB) (cps : List Checkpoint)
    (asChannels : Bool) : Except String Grid :=
  if t.x_max - t.x_min < 0 ∨ t.y_max - t.y_min < 0 ∨ t.z_max - t.z_min < 0 then
    .error "negative dimensions are not allowed"
  else if indexFailure t cps then
    .error "index is out of bounds"
  else
    .ok (materializeGrid t cps asChannels)

/-- The task-bounds invariant from the spec's data model: a non-degenerate
box. -/
def nondegenerate (t : TaskInDB) : Prop :=
  t.x_min < t.x_max ∧ t.y_min < t.y_max ∧ t.z_min < t.z_max

instance (t : TaskInDB) : Decidable (nondegenerate t) := by
  unfold nondegenerate
  infer_instance

/-- Read one voxel out of a materialization result. -/
def voxel (res : Except String Grid) (x y z : Int) (c : Nat) : Option Nat :=
  match res with
  | .ok g => some (g.data x y z c)
  | .error _ => none

/-- Whether a materialization result is a returned grid. -/
def returnsGrid (res : Except String Grid) : Bool :=
  match res with
  | .ok _ => true
  | .error _ => false

/-- Whether a (row, col) pixel list contains the pixel at column x, row y. -/
def pixHit (px : List (Int × Int)) (x y : Int) : Bool :=
  px.any fun q => decide (x = q.2) && decide (y = q.1)

/-- Pixel-set membership used to state coverage: whether the clamped
rasterization of some valid ring in the region list contains the pixel at
column x, row y. -/
def regsCover (t : TaskInDB) (regs : List (List (ℚ × ℚ))) (x y : Int) : Bool :=
  regs.any fun ring =>
    ringValid ring &&
      pixHit (clampPixels (t.x_max - t.x_min) (t.y_max - t.y_min) (regionPixels t ring)) x y

section Lemmas

lemma pixHit_iff_mem (px : List (Int × Int)) (x y : Int) :
    pixHit px x y = true ↔ (y, x) ∈ px := by
  simp only [pixHit, List.any_eq_true, Bool.and_eq_true, decide_eq_true_eq]
  constructor
  · rintro ⟨q, hq, h1, h2⟩
    have : q = (y, x) := by
      cases q
      simp_all
    rw [this] at hq
    exact hq
  · intro h
    exact ⟨(y, x), h, rfl, rfl⟩

lemma writePixel_data (chan v : Nat) (z : Int) (g : Grid) (q : Int × Int)
    (x y z2 : Int) (c : Nat) :
    (writePixel chan v z g q).data x y z2 c =
      if x = q.2 ∧ y = q.1 ∧ z2 = z ∧ c = chan then v else g.data x y z2 c := rfl

lemma writePixels_data (chan v : Nat) (z : Int) (px : List (Int × Int)) (g : Grid)
    (x y z2 : Int) (c : Nat) :
    (writePixels chan v z px g).data x y z2 c =
      if (y, x) ∈ px ∧ z2 = z ∧ c = chan then v else g.data x y z2 c := by
  induction px generalizing g with
  | nil => simp [writePixels]
  | cons q px ih =>
    simp only [writePixels, List.foldl_cons] at *
    rw [ih]
    simp only [writePixel_data, List.mem_cons]
    by_cases h2 : z2 = z
    · by_cases h3 : c = chan
      · by_cases h5 : (y, x) = q
        · have hx : x = q.2 := by rw [← h5]
          have hy : y = q.1 := by rw [← h5]
          by_cases h4 : (y, x) ∈ px <;> simp [h2, h3, h4, h5, hx, hy]
        · have hne : ¬(x = q.2 ∧ y = q.1) := by
            rintro ⟨a1, a2⟩
            exact h5 (by cases q; simp_all)
          by_cases h4 : (y, x) ∈ px <;> simp [h2, h3, h4, h5, hne]
      · simp [h3]
    · simp [h2]

lemma writePixels_shape (chan v : Nat) (z : Int) (px : List (Int × Int)) (g : Grid) :
    (writePixels chan v z px g).xSize = g.xSize ∧
      (writePixels chan v z px g).ySize = g.ySize ∧
      (writePixels chan v z px g).zSize = g.zSize ∧
      (writePixels chan v z px g).channelCount = g.channelCount := by
  induction px generalizing g with
  | nil => exact ⟨rfl, rfl, rfl, rfl⟩
  | cons q px ih =>
    simp only [writePixels, List.foldl_cons] at *
    exact ih (writePixel chan v z g q)

lemma applyRegions_data (t : TaskInDB) (chan v : Nat) (z : Int)
    (regs : List (List (ℚ × ℚ))) (g : Grid) (x y z2 : Int) (c : Nat) :
    (applyRegions t chan v z regs g).data x y z2 c =
      if regsCover t regs x y = true ∧ z2 = z ∧ c = chan then v else g.data x y z2 c := by
  induction regs generalizing g with
  | nil => simp [applyRegions, regsCover]
  | cons ring regs ih =>
    simp only [applyRegions, List.foldl_cons] at *
    rw [ih]
    have hcov : regsCover t (ring :: regs) x y =
        (ringValid ring &&
          pixHit (clampPixels (t.x_max - t.x_min) (t.y_max - t.y_min)
            (regionPixels t ring)) x y || regsCover t regs x y) := by
      simp [regsCover, List.any_cons]
    by_cases hval : ringValid ring = true
    · rw [if_pos hval, writePixels_data]
      by_cases hz2 : z2 = z
      · by_cases hc : c = chan
        · by_cases hrest : regsCover t regs x y = true
          · simp [hcov, hval, hrest, hz2, hc]
          · by_cases hmem : (y, x) ∈ clampPixels (t.x_max - t.x_min)
                (t.y_max - t.y_min) (regionPixels t ring)
            · simp [hcov, hval, hrest, hz2, hc, hmem, pixHit_iff_mem]
            · simp [hcov, hval, hrest, hz2, hc, hmem, pixHit_iff_mem]
        · simp [hcov, hc]
      · simp [hcov, hz2]
    · rw [if_neg hval]
      have heq : regsCover t (ring :: regs) x y = regsCover t regs x y := by
        simp [hcov, hval]
      rw [heq]

lemma applyRegions_shape (t : TaskInDB) (chan v : Nat) (z : Int)
    (regs : List (List (ℚ × ℚ))) (g : Grid) :
    (applyRegions t chan v z regs g).xSize = g.xSize ∧
      (applyRegions t chan v z regs g).ySize = g.ySize ∧
      (applyRegions t chan v z regs g).zSize = g.zSize ∧
      (applyRegions t chan v z regs g).channelCount = g.channelCount := by
  induction regs generalizing g with
  | nil => exact ⟨rfl, rfl, rfl, rfl⟩
  | cons ring regs ih =>
    simp only [applyRegions, List.foldl_cons] at *
    refine (ih _).imp (fun h => h.trans ?_) (fun h => h.imp (fun h => h.trans ?_)
      (fun h => h.imp (fun h => h.trans ?_) (fun h => h.trans ?_))) <;>
      by_cases hval : ringValid ring = true <;>
        simp [hval, writePixels_shape]

lemma applyPolygon_skip (t : TaskInDB) (ids : List Nat) (b : Bool) (g : Grid)
    (p : Polygon) (h : p.z - t.z_min < 0 ∨ t.z_max - t.z_min ≤ p.z - t.z_min) :
    applyPolygon t ids b g p = g := by
  simp only [applyPolygon]
  rw [if_pos h]

lemma applyPolygon_data (t : TaskInDB) (ids : List Nat) (b : Bool) (g : Grid)
    (p : Polygon) (h0 : 0 ≤ p.z - t.z_min) (h1 : p.z - t.z_min < t.z_max - t.z_min)
    (x y z2 : Int) (c : Nat) :
    (applyPolygon t ids b g p).data x y z2 c =
      (if regsCover t p.negativeRegions x y = true ∧ z2 = p.z - t.z_min ∧
          c = (if b then ids.indexOf p.segmentID else 0) then 0
       else if regsCover t p.positiveRegions x y = true ∧ z2 = p.z - t.z_min ∧
          c = (if b then ids.indexOf p.segmentID else 0) then p.segmentID
       else g.data x y z2 c) := by
  have hz : ¬(p.z - t.z_min < 0 ∨ t.z_max - t.z_min ≤ p.z - t.z_min) := by omega
  simp only [applyPolygon, if_neg hz]
  rw [applyRegions_data, applyRegions_data]

lemma applyPolygon_shape (t : TaskInDB) (ids : List Nat) (b : Bool) (g : Grid)
    (p : Polygon) :
    (applyPolygon t ids b g p).xSize = g.xSize ∧
      (applyPolygon t ids b g p).ySize = g.ySize ∧
      (applyPolygon t ids b g p).zSize = g.zSize ∧
      (applyPolygon t ids b g p).channelCount = g.channelCount := by
  by_cases hz : p.z - t.z_min < 0 ∨ t.z_max - t.z_min ≤ p.z - t.z_min
  · rw [applyPolygon_skip t ids b g p hz]
    exact ⟨rfl, rfl, rfl, rfl⟩
  · simp only [applyPolygon, if_neg hz]
    obtain ⟨a1, a2, a3, a4⟩ := applyRegions_shape t _ 0 (p.z - t.z_min) p.negativeRegions
      (applyRegions t _ p.segmentID (p.z - t.z_min) p.positiveRegions g)
    obtain ⟨b1, b2, b3, b4⟩ := applyRegions_shape t _ p.segmentID (p.z - t.z_min)
      p.positiveRegions g
    exact ⟨a1.trans b1, a2.trans b2, a3.trans b3, a4.trans b4⟩

lemma foldl_polygons_flatten (f : Grid → Polygon → Grid) (cps : List Checkpoint)
    (g : Grid) :
    cps.foldl (fun g2 cp => cp.polygons.foldl f g2) g = (allPolygons cps).foldl f g := by
  induction cps generalizing g with
  | nil => rfl
  | cons cp cps ih =>
    simp only [List.foldl_cons, allPolygons, List.foldr_cons, List.foldl_append] at *
    rw [ih]

lemma materializeGrid_eq_foldl (t : TaskInDB) (cps : List Checkpoint) (b : Bool) :
    materializeGrid t cps b =
      (allPolygons cps).foldl (applyPolygon t (segmentIds cps) b)
        (initGrid t (segmentIds cps).length b) := by
  simp only [materializeGrid]
  exact foldl_polygons_flatten _ cps _

lemma foldl_applyPolygon_shape (t : TaskInDB) (ids : List Nat) (b : Bool)
    (ps : List Polygon) (g : Grid) :
    (ps.foldl (applyPolygon t ids b) g).xSize = g.xSize ∧
      (ps.foldl (applyPolygon t ids b) g).ySize = g.ySize ∧
      (ps.foldl (applyPolygon t ids b) g).zSize = g.zSize ∧
      (ps.foldl (applyPolygon t ids b) g).channelCount = g.channelCount := by
  induction ps generalizing g with
  | nil => exact ⟨rfl, rfl, rfl, rfl⟩
  | cons p ps ih =>
    simp only [List.foldl_cons]
    obtain ⟨a1, a2, a3, a4⟩ := ih (applyPolygon t ids b g p)
    obtain ⟨b1, b2, b3, b4⟩ := applyPolygon_shape t ids b g p
    exact ⟨a1.trans b1, a2.trans b2, a3.trans b3, a4.trans b4⟩

lemma indexFailure_false_of_pos (t : TaskInDB) (cps : List Checkpoint)
    (hx : 0 < t.x_max - t.x_min) (hy : 0 < t.y_max - t.y_min) :
    indexFailure t cps = false := by
  simp only [indexFailure, Bool.and_eq_false_iff, Bool.or_eq_false_iff,
    decide_eq_false_iff_not]
  left
  omega

lemma materialize_ok_of_extents (t : TaskInDB) (cps : List Checkpoint) (b : Bool)
    (hx : 0 < t.x_max - t.x_min) (hy : 0 < t.y_max - t.y_min)
    (hz : 0 ≤ t.z_max - t.z_min) :
    materialize_xyz_volume t cps b = .ok (materializeGrid t cps b) := by
  have h1 : ¬(t.x_max - t.x_min < 0 ∨ t.y_max - t.y_min < 0 ∨ t.z_max - t.z_min < 0) := by
    omega
  simp only [materialize_xyz_volume]
  rw [if_neg h1, indexFailure_false_of_pos t cps hx hy]
  simp

lemma materialize_ok (t : TaskInDB) (cps : List Checkpoint) (b : Bool)
    (h : nondegenerate t) :
    materialize_xyz_volume t cps b = .ok (materializeGrid t cps b) := by
  obtain ⟨hx, hy, hz⟩ := h
  exact materialize_ok_of_extents t cps b (by omega) (by omega) (by omega)

lemma mem_segmentIds (cps : List Checkpoint) (a : Nat) :
    a ∈ segmentIds cps ↔ ∃ p ∈ allPolygons cps, p.segmentID = a := by
  simp only [segmentIds, List.mem_dedup]
  rw [(List.perm_insertionSort (· ≤ ·) _).mem_iff]
  simp [List.mem_map]

lemma segmentIds_sorted (cps : List Checkpoint) :
    List.Sorted (· < ·) (segmentIds cps) := by
  have h1 : List.Sorted (· ≤ ·)
      (((allPolygons cps).map Polygon.segmentID).insertionSort (· ≤ ·)) :=
    List.sorted_insertionSort _ _
  have h2 := List.dedup_sublist
    (((allPolygons cps).map Polygon.segmentID).insertionSort (· ≤ ·))
  exact List.Sorted.lt_of_le (List.Pairwise.sublist h2 h1) (List.nodup_dedup _)

lemma getD_indexOf_of_mem (l : List Nat) (a : Nat) (h : a ∈ l) :
    l.getD (l.indexOf a) 0 = a := by
  have hlt : l.indexOf a < l.length := List.indexOf_lt_length.mpr h
  rw [List.getD_eq_getElem l 0 hlt]
  exact List.getElem_indexOf hlt

lemma applyRegions_filter (t : TaskInDB) (chan v : Nat) (z : Int)
    (regs : List (List (ℚ × ℚ))) (g : Grid) :
    applyRegions t chan v z regs g =
      applyRegions t chan v z (regs.filter (fun r => ringValid r)) g := by
  induction regs generalizing g with
  | nil => rfl
  | cons ring regs ih =>
    by_cases hval : ringValid ring = true
    · simp only [applyRegions, List.foldl_cons, List.filter_cons, hval, if_pos] at *
      rw [ih]
    · simp only [applyRegions, List.foldl_cons, List.filter_cons, hval] at *
      simp only [Bool.false_eq_true, if_false]
      rw [ih]

lemma npClip_in_range (hi v : Int) (h : 0 ≤ hi) :
    0 ≤ npClip 0 hi v ∧ npClip 0 hi v ≤ hi := by
  unfold npClip
  omega

lemma npClip_nearest (hi v k : Int) (h0 : 0 ≤ k) (h1 : k ≤ hi) :
    |npClip 0 hi v - v| ≤ |k - v| := by
  rcases le_or_lt v 0 with hv | hv
  · have e : npClip 0 hi v = 0 := by
      unfold npClip
      rw [max_eq_left hv, min_eq_right (by omega)]
    rw [e, abs_of_nonneg (by omega), abs_of_nonneg (by omega)]
    omega
  · rcases le_or_lt v hi with hv2 | hv2
    · have e : npClip 0 hi v = v := by
        unfold npClip
        rw [max_eq_right (by omega), min_eq_right hv2]
      rw [e]
      simp only [sub_self, abs_zero]
      exact abs_nonneg _
    · have e : npClip 0 hi v = hi := by
        unfold npClip
        rw [max_eq_right (by omega), min_eq_left (by omega)]
      rw [e, abs_of_nonpos (by omega), abs_of_nonpos (by omega)]
      omega

lemma foldl_channel_invariant (t : TaskInDB) (ids : List Nat)
    (ps : List Polygon) (g : Grid)
    (hmem : ∀ p ∈ ps, p.segmentID ∈ ids)
    (hinv : ∀ (x y z : Int) (c : Nat), c < ids.length →
      g.data x y z c = 0 ∨ g.data x y z c = ids.getD c 0) :
    ∀ (x y z : Int) (c : Nat), c < ids.length →
      (ps.foldl (applyPolygon t ids true) g).data x y z c = 0 ∨
      (ps.foldl (applyPolygon t ids true) g).data x y z c = ids.getD c 0 := by
  induction ps generalizing g with
  | nil => exact hinv
  | cons p ps ih =>
    simp only [List.foldl_cons]
    apply ih
    · intro q hq
      exact hmem q (List.mem_cons_of_mem _ hq)
    · intro x y z c hc
      by_cases hz : p.z - t.z_min < 0 ∨ t.z_max - t.z_min ≤ p.z - t.z_min
      · rw [applyPolygon_skip _ _ _ _ _ hz]
        exact hinv x y z c hc
      · push_neg at hz
        rw [applyPolygon_data t ids true g p (by omega) (by omega)]
        simp only [eq_self_iff_true, if_true]
        split_ifs with hneg hpos
        · left
          rfl
        · right
          obtain ⟨-, -, hcc⟩ := hpos
          rw [hcc]
          exact (getD_indexOf_of_mem ids p.segmentID
            (hmem p (List.mem_cons_self p ps))).symm
        · exact hinv x y z c hc

end Lemmas

section ConcreteInputs

/-- A concrete 4 x 4 x 1 task at resolution 0 used in the concrete
theorems. -/
def taskW : TaskInDB :=
  { collection := "c", experiment := "e", channel := "ch", resolution := 0
    x_min := 0, x_max := 4, y_min := 0, y_max := 4, z_min := 0, z_max := 1
    priority := 0, destination_collection := none, destination_experiment := none
    destination_channel := none, id := "t" }

/-- A task at resolution level 1 with x_min = y_min = 50 (spec example for
the coordinate transform). -/
def tRes1 : TaskInDB :=
  { taskW with resolution := 1, x_min := 50, x_max := 54, y_min := 50, y_max := 54 }

/-- taskW with a degenerate (zero-width, not inverted) x extent. -/
def t6deg : TaskInDB := { taskW with x_max := 0 }

/-- taskW with inverted x bounds. -/
def t6inv : TaskInDB := { taskW with x_max := -1 }

/-- Polygon with segmentID 3 whose single positive region covers the 3 x 3
pixel block (0..2) x (0..2) on slice 0. -/
def polyA : Polygon :=
  { points := [], holes := [], editing := false, segmentID := 3, color := none, z := 0
    positiveRegions := [[(-1/2, -1/2), (5/2, -1/2), (5/2, 5/2), (-1/2, 5/2)]]
    negativeRegions := [] }

/-- Polygon with segmentID 7 whose positive region covers only pixel (3, 3)
and whose negative region covers only pixel (0, 0), on slice 0. -/
def polyB : Polygon :=
  { points := [], holes := [], editing := false, segmentID := 7, color := none, z := 0
    positiveRegions := [[(5/2, 5/2), (7/2, 5/2), (7/2, 7/2), (5/2, 7/2)]]
    negativeRegions := [[(-1/2, -1/2), (1/2, -1/2), (1/2, 1/2), (-1/2, 1/2)]] }

/-- Polygon with segmentID 7 covering the pixel block (1..3) x (1..3) on
slice 0 (overlaps polyA on (1..2) x (1..2)). -/
def polyC : Polygon :=
  { points := [], holes := [], editing := false, segmentID := 7, color := none, z := 0
    positiveRegions := [[(1/2, 1/2), (7/2, 1/2), (7/2, 7/2), (1/2, 7/2)]]
    negativeRegions := [] }

/-- Polygon with segmentID 5, same coverage as polyA. -/
def poly5 : Polygon := { polyA with segmentID := 5 }

/-- Polygon with segmentID 9, same coverage as polyC. -/
def poly9 : Polygon := { polyC with segmentID := 9 }

/-- Polygon whose only positive region has just 2 vertices (a tolerated
degenerate ring). -/
def polyTwoVertex : Polygon :=
  { points := [], holes := [], editing := false, segmentID := 6, color := none, z := 0
    positiveRegions := [[(0, 0), (1, 1)]]
    negativeRegions := [] }

/-- Polygon whose slice index is outside taskW's z range. -/
def polyZOut : Polygon := { polyA with z := 5 }

end ConcreteInputs

section Claims

lemma materializeGrid_shape (t : TaskInDB) (cps : List Checkpoint) (b : Bool) :
    (materializeGrid t cps b).xSize = t.x_max - t.x_min ∧
    (materializeGrid t cps b).ySize = t.y_max - t.y_min ∧
    (materializeGrid t cps b).zSize = t.z_max - t.z_min ∧
    (materializeGrid t cps b).channelCount =
      (if b then some (segmentIds cps).length else none) := by
  rw [materializeGrid_eq_foldl]
  exact foldl_applyPolygon_shape t (segmentIds cps) b (allPolygons cps)
    (initGrid t (segmentIds cps).length b)

/-- Modelled from the spec: the CoordinateTransformer contract formula,
mapping an annotation-space point (x, y) to
(x / 2 ^ r - x_min, y / 2 ^ r - y_min) with real-valued division. -/
def specTransformPoint (r : Int) (xmin ymin : ℚ) (p : ℚ × ℚ) : ℚ × ℚ :=
  (p.1 / 2 ^ r - xmin, p.2 / 2 ^ r - ymin)

/-- C3: the volume-local coordinates the renderer rasterizes are exactly the
spec formula: each vertex is divided (real-valued) by 2 ^ resolution and the
task minima are subtracted afterwards, unscaled; in particular at resolution
level 1 with x_min = y_min = 50 the vertex (200, 200) maps to (50, 50). -/
theorem c3_coordinate_transform :
    (∀ (t : TaskInDB) (ring : List (ℚ × ℚ)),
      transformRing t ring =
        ring.map (specTransformPoint t.resolution (t.x_min : ℚ) (t.y_min : ℚ))) ∧
    transformRing tRes1 [(200, 200)] = [(50, 50)] := by
  constructor
  · intro t ring
    simp only [transformRing, offsetRingY, offsetRingX, scaleRing, resolutionFactor,
      List.map_map]
    rfl
  · with_unfolding_all decide

/-- C9: materialization is deterministic.  The embedded renderer is a pure
function of the task, the ordered checkpoint list and the channel flag (the
source reads no other state that influences the output; logging is its only
side effect), so re-running it on identical inputs definitionally reproduces
the identical grid. -/
theorem c9_deterministic (t : TaskInDB) (cps : List Checkpoint) (b : Bool) :
    materialize_xyz_volume t cps b = materialize_xyz_volume t cps b := rfl

/-- C5: for every task with non-degenerate bounds and every checkpoint list,
materialization returns a grid of shape exactly (x_max - x_min,
y_max - y_min, z_max - z_min), with channel dimension label_count in channel
mode, and the shape does not depend on the resolution level. -/
theorem c5_shape (t : TaskInDB) (cps : List Checkpoint) (b : Bool)
    (hnd : nondegenerate t) :
    ∃ g, materialize_xyz_volume t cps b = .ok g ∧
      g.xSize = t.x_max - t.x_min ∧ g.ySize = t.y_max - t.y_min ∧
      g.zSize = t.z_max - t.z_min ∧
      g.channelCount = (if b then some (segmentIds cps).length else none) ∧
      ∀ r : Int, ∃ g2,
        materialize_xyz_volume { t with resolution := r } cps b = .ok g2 ∧
        g2.xSize = g.xSize ∧ g2.ySize = g.ySize ∧ g2.zSize = g.zSize ∧
        g2.channelCount = g.channelCount := by
  obtain ⟨a1, a2, a3, a4⟩ := materializeGrid_shape t cps b
  refine ⟨materializeGrid t cps b, materialize_ok t cps b hnd, a1, a2, a3, a4, ?_⟩
  intro r
  obtain ⟨b1, b2, b3, b4⟩ := materializeGrid_shape { t with resolution := r } cps b
  refine ⟨materializeGrid { t with resolution := r } cps b,
    materialize_ok _ cps b hnd, ?_, ?_, ?_, ?_⟩
  · rw [b1, a1]
  · rw [b2, a2]
  · rw [b3, a3]
  · rw [b4, a4]

/-- Witness for c5_shape at a concrete non-degenerate task. -/
theorem c5_shape_witness :
    ∃ g, materialize_xyz_volume taskW [] false = .ok g ∧
      g.xSize = taskW.x_max - taskW.x_min ∧ g.ySize = taskW.y_max - taskW.y_min ∧
      g.zSize = taskW.z_max - taskW.z_min ∧
      g.channelCount = (if false then some (segmentIds []).length else none) ∧
      ∀ r : Int, ∃ g2,
        materialize_xyz_volume { taskW with resolution := r } [] false = .ok g2 ∧
        g2.xSize = g.xSize ∧ g2.ySize = g.ySize ∧ g2.zSize = g.zSize ∧
        g2.channelCount = g.channelCount :=
  c5_shape taskW [] false (by decide)

/-- C6 counterexample: t6deg has x_max = x_min = 0, violating the bounds
invariant, yet materializing it (here with no checkpoints) returns a grid
rather than failing: numpy rejects only negative dimensions, a zero-sized
allocation succeeds, and with nothing to write no IndexError occurs. -/
theorem c6_counterexample :
    ¬ (t6deg.x_min < t6deg.x_max) ∧
    returnsGrid (materialize_xyz_volume t6deg [] false) = true := by
  decide

/-- C6 (amended): inverted bounds (a strictly negative extent) always abort
materialization with an error signaled to the caller, and tasks satisfying
the *_max > *_min invariant never fail regardless of the polygons supplied;
but zero-width (degenerate, non-inverted) bounds are not rejected by
themselves: they fail only when some polygon rasterizes a nonempty pixel
batch into the zero-sized x or y extent (see c6_counterexample). -/
theorem c6_bounds_failure (t : TaskInDB) (cps : List Checkpoint) (b : Bool) :
    ((t.x_max - t.x_min < 0 ∨ t.y_max - t.y_min < 0 ∨ t.z_max - t.z_min < 0) →
      materialize_xyz_volume t cps b = .error "negative dimensions are not allowed") ∧
    (nondegenerate t → ∃ g, materialize_xyz_volume t cps b = .ok g) := by
  constructor
  · intro h
    unfold materialize_xyz_volume
    rw [if_pos h]
  · intro h
    exact ⟨materializeGrid t cps b, materialize_ok t cps b h⟩

/-- Witness for c6_bounds_failure: inverted bounds error out, a
non-degenerate task returns a grid. -/
theorem c6_bounds_failure_witness :
    (materialize_xyz_volume t6inv [] false =
      .error "negative dimensions are not allowed") ∧
    ∃ g, materialize_xyz_volume taskW [⟨[polyA], "t"⟩] false = .ok g :=
  ⟨(c6_bounds_failure t6inv [] false).1 (by decide),
   (c6_bounds_failure taskW [⟨[polyA], "t"⟩] false).2 (by decide)⟩

/-- C8: every rasterized (row, col) pixel is clamped componentwise into
[0, y_size - 1] x [0, x_size - 1] before being written; clamping preserves
the number of pixels (nothing is dropped), sends each coordinate to the
nearest in-bounds value, and with positive x and y extents no write can
raise an index error, so materialization returns a grid. -/
theorem c8_clamping (t : TaskInDB) (px : List (Int × Int))
    (hx : 0 < t.x_max - t.x_min) (hy : 0 < t.y_max - t.y_min)
    (hz : 0 ≤ t.z_max - t.z_min) :
    (clampPixels (t.x_max - t.x_min) (t.y_max - t.y_min) px).length = px.length ∧
    (∀ q ∈ clampPixels (t.x_max - t.x_min) (t.y_max - t.y_min) px,
      0 ≤ q.1 ∧ q.1 < t.y_max - t.y_min ∧ 0 ≤ q.2 ∧ q.2 < t.x_max - t.x_min) ∧
    (∀ q ∈ px, ∀ k : Int, 0 ≤ k → k < t.y_max - t.y_min →
      |npClip 0 (t.y_max - t.y_min - 1) q.1 - q.1| ≤ |k - q.1|) ∧
    (∀ q ∈ px, ∀ k : Int, 0 ≤ k → k < t.x_max - t.x_min →
      |npClip 0 (t.x_max - t.x_min - 1) q.2 - q.2| ≤ |k - q.2|) ∧
    (∀ (cps : List Checkpoint) (b : Bool), indexFailure t cps = false ∧
      ∃ g, materialize_xyz_volume t cps b = .ok g) := by
  refine ⟨?_, ?_, ?_, ?_, ?_⟩
  · simp [clampPixels]
  · intro q hq
    simp only [clampPixels, List.mem_map] at hq
    obtain ⟨q0, -, rfl⟩ := hq
    have h1 := npClip_in_range (t.y_max - t.y_min - 1) q0.1 (by omega)
    have h2 := npClip_in_range (t.x_max - t.x_min - 1) q0.2 (by omega)
    exact ⟨h1.1, by omega, h2.1, by omega⟩
  · intro q hq k hk0 hk1
    exact npClip_nearest _ _ _ hk0 (by omega)
  · intro q hq k hk0 hk1
    exact npClip_nearest _ _ _ hk0 (by omega)
  · intro cps b
    exact ⟨indexFailure_false_of_pos t cps hx hy,
      materializeGrid t cps b, materialize_ok_of_extents t cps b hx hy hz⟩

/-- Witness for c8_clamping at taskW with a pixel list containing an
out-of-bounds pixel. -/
theorem c8_clamping_witness :
    (clampPixels (taskW.x_max - taskW.x_min) (taskW.y_max - taskW.y_min)
      [((10 : Int), (-3 : Int))]).length = [((10 : Int), (-3 : Int))].length ∧
    (∀ q ∈ clampPixels (taskW.x_max - taskW.x_min) (taskW.y_max - taskW.y_min)
      [((10 : Int), (-3 : Int))],
      0 ≤ q.1 ∧ q.1 < taskW.y_max - taskW.y_min ∧
        0 ≤ q.2 ∧ q.2 < taskW.x_max - taskW.x_min) ∧
    (∀ q ∈ [((10 : Int), (-3 : Int))], ∀ k : Int, 0 ≤ k →
      k < taskW.y_max - taskW.y_min →
      |npClip 0 (taskW.y_max - taskW.y_min - 1) q.1 - q.1| ≤ |k - q.1|) ∧
    (∀ q ∈ [((10 : Int), (-3 : Int))], ∀ k : Int, 0 ≤ k →
      k < taskW.x_max - taskW.x_min →
      |npClip 0 (taskW.x_max - taskW.x_min - 1) q.2 - q.2| ≤ |k - q.2|) ∧
    (∀ (cps : List Checkpoint) (b : Bool), indexFailure taskW cps = false ∧
      ∃ g, materialize_xyz_volume taskW cps b = .ok g) :=
  c8_clamping taskW [(10, -3)] (by decide) (by decide) (by decide)

/-- C1 counterexample: on taskW, polyA (segmentID 3) writes pixel (0, 0);
polyB, processed later, has a positive region covering only pixel (3, 3) and
a negative region covering pixel (0, 0).  After polyB is processed, the
voxel at (0, 0, 0) on its slice, which the earlier polygon wrote nonzero and
which polyB's positive regions do not cover, holds 0 instead of the earlier
value 3: the negative region removed another polygon's coverage. -/
theorem c1_counterexample :
    voxel (materialize_xyz_volume taskW [⟨[polyA], "t"⟩] false) 0 0 0 0 = some 3 ∧
    regsCover taskW polyB.positiveRegions 0 0 = false ∧
    voxel (materialize_xyz_volume taskW [⟨[polyA, polyB], "t"⟩] false) 0 0 0 0 =
      some 0 := by
  refine ⟨?_, ?_, ?_⟩ <;> with_unfolding_all decide

/-- C1 (amended): processing a polygon leaves unchanged every voxel whose
pixel is covered neither by the polygon's (valid, clamped) positive regions
nor by its negative regions; voxels inside the polygon's negative regions
are however cleared even when an earlier polygon wrote them and the positive
regions do not cover them, as c1_counterexample shows. -/
theorem c1_negative_region_frame (t : TaskInDB) (ids : List Nat) (b : Bool)
    (g : Grid) (p : Polygon) (x y : Int)
    (hpos : regsCover t p.positiveRegions x y = false)
    (hneg : regsCover t p.negativeRegions x y = false) :
    ∀ (z2 : Int) (c : Nat),
      (applyPolygon t ids b g p).data x y z2 c = g.data x y z2 c := by
  intro z2 c
  by_cases hz : p.z - t.z_min < 0 ∨ t.z_max - t.z_min ≤ p.z - t.z_min
  · rw [applyPolygon_skip t ids b g p hz]
  · push_neg at hz
    rw [applyPolygon_data t ids b g p (by omega) (by omega)]
    simp [hpos, hneg]

/-- Witness for c1_negative_region_frame: pixel (1, 1) is covered by neither
region list of polyB, so processing polyB preserves it. -/
theorem c1_negative_region_frame_witness :
    (applyPolygon taskW [] false (initGrid taskW 0 false) polyB).data 1 1 0 0 =
      (initGrid taskW 0 false).data 1 1 0 0 :=
  c1_negative_region_frame taskW [] false (initGrid taskW 0 false) polyB 1 1
    (by with_unfolding_all decide) (by with_unfolding_all decide) 0 0

/-- C2: polygons are applied in checkpoint order then polygon order with
last-writer-wins: when the checkpoints flatten to the two-polygon sequence
[p3, p7] with segmentIDs 3 and 7, both hole-free and on the same in-range
slice, the finished single-channel grid holds 7 at every pixel p7 covers
(including the overlap), 3 at pixels only p3 covers, and 0 elsewhere on that
slice. -/
theorem c2_last_writer_wins (t : TaskInDB) (cps : List Checkpoint)
    (p3 p7 : Polygon) (hnd : nondegenerate t)
    (hflat : allPolygons cps = [p3, p7])
    (h3 : p3.segmentID = 3) (h7 : p7.segmentID = 7)
    (hn3 : p3.negativeRegions = []) (hn7 : p7.negativeRegions = [])
    (hzz : p7.z = p3.z) (hz0 : 0 ≤ p3.z - t.z_min)
    (hz1 : p3.z - t.z_min < t.z_max - t.z_min) :
    ∃ g, materialize_xyz_volume t cps false = .ok g ∧
      ∀ x y : Int, g.data x y (p3.z - t.z_min) 0 =
        (if regsCover t p7.positiveRegions x y = true then 7
         else if regsCover t p3.positiveRegions x y = true then 3 else 0) := by
  refine ⟨materializeGrid t cps false, materialize_ok t cps false hnd, ?_⟩
  intro x y
  rw [materializeGrid_eq_foldl, hflat]
  simp only [List.foldl_cons, List.foldl_nil]
  rw [applyPolygon_data t (segmentIds cps) false _ p7 (by omega) (by omega)]
  rw [applyPolygon_data t (segmentIds cps) false _ p3 (by omega) (by omega)]
  rw [hn3, hn7, h3, h7, hzz]
  have hemp : regsCover t ([] : List (List (ℚ × ℚ))) x y = false := rfl
  simp only [hemp, Bool.false_eq_true, false_and, if_false, initGrid]
  simp

/-- Witness for c2_last_writer_wins: polyA (id 3) then polyC (id 7) on
taskW, with concrete coverage facts: the overlap pixel (1, 1) is covered by
both, (0, 0) only by polyA, (3, 3) only by polyC. -/
theorem c2_last_writer_wins_witness :
    (∃ g, materialize_xyz_volume taskW [⟨[polyA, polyC], "t"⟩] false = .ok g ∧
      ∀ x y : Int, g.data x y (polyA.z - taskW.z_min) 0 =
        (if regsCover taskW polyC.positiveRegions x y = true then 7
         else if regsCover taskW polyA.positiveRegions x y = true then 3 else 0)) ∧
    regsCover taskW polyC.positiveRegions 1 1 = true ∧
    regsCover taskW polyA.positiveRegions 1 1 = true ∧
    regsCover taskW polyA.positiveRegions 0 0 = true ∧
    regsCover taskW polyC.positiveRegions 0 0 = false ∧
    regsCover taskW polyC.positiveRegions 3 3 = true :=
  ⟨c2_last_writer_wins taskW [⟨[polyA, polyC], "t"⟩] polyA polyC
      (by decide) rfl rfl rfl rfl rfl rfl (by decide) (by decide),
    by with_unfolding_all decide, by with_unfolding_all decide,
    by with_unfolding_all decide, by with_unfolding_all decide,
    by with_unfolding_all decide⟩

/-- C7: tolerated geometric anomalies are skipped with their contribution
omitted while the materialization still succeeds: a polygon with an
out-of-range slice index contributes nothing; a polygon renders exactly as
if its invalid rings (fewer than 3 vertices; the failed-2D-parse case is
unreachable for rings typed as coordinate-pair lists, which the pydantic
schema guarantees) were removed; materialization on a non-degenerate task
always returns a grid; and a polygon whose only positive region has 2
vertices leaves the grid entirely unlabeled. -/
theorem c7_tolerated_anomalies :
    (∀ (t : TaskInDB) (ids : List Nat) (b : Bool) (g : Grid) (p : Polygon),
      (p.z - t.z_min < 0 ∨ t.z_max - t.z_min ≤ p.z - t.z_min) →
        applyPolygon t ids b g p = g) ∧
    (∀ (t : TaskInDB) (ids : List Nat) (b : Bool) (g : Grid) (p : Polygon),
      applyPolygon t ids b g p = applyPolygon t ids b g
        { p with positiveRegions := p.positiveRegions.filter (fun r => ringValid r),
                 negativeRegions := p.negativeRegions.filter (fun r => ringValid r) }) ∧
    (∀ (t : TaskInDB) (cps : List Checkpoint) (b : Bool), nondegenerate t →
      ∃ g, materialize_xyz_volume t cps b = .ok g) ∧
    (∃ g, materialize_xyz_volume taskW [⟨[polyTwoVertex], "t"⟩] false = .ok g ∧
      ∀ (x y z : Int) (c : Nat), g.data x y z c = 0) := by
  refine ⟨?_, ?_, ?_, ?_⟩
  · exact fun t ids b g p h => applyPolygon_skip t ids b g p h
  · intro t ids b g p
    simp only [applyPolygon]
    rw [applyRegions_filter t _ p.segmentID _ p.positiveRegions,
      applyRegions_filter t _ 0 _ p.negativeRegions]
  · intro t cps b h
    exact ⟨materializeGrid t cps b, materialize_ok t cps b h⟩
  · refine ⟨materializeGrid taskW [⟨[polyTwoVertex], "t"⟩] false,
      materialize_ok _ _ _ (by decide), ?_⟩
    intro x y z c
    rfl

/-- Witness for c7_tolerated_anomalies: the out-of-range polygon polyZOut is
a no-op, and a concrete non-degenerate task materializes successfully. -/
theorem c7_tolerated_anomalies_witness :
    applyPolygon taskW [] false (initGrid taskW 0 false) polyZOut =
      initGrid taskW 0 false ∧
    ∃ g, materialize_xyz_volume taskW [] false = .ok g :=
  ⟨c7_tolerated_anomalies.1 taskW [] false (initGrid taskW 0 false) polyZOut
      (by decide),
   c7_tolerated_anomalies.2.2.1 taskW [] false (by decide)⟩

/-- C10: the legacy-field upgrade happens once at construction and the
engine reads only the normalized fields: a polygon built from non-empty
legacy points (and holes) with empty positiveRegions/negativeRegions
normalizes to positiveRegions = [points] and negativeRegions = holes, in
fact to exactly the record the equivalent new-format polygon normalizes to,
so materializing the legacy form produces the same grid as the new form;
and rendering depends only on positiveRegions, negativeRegions, z and
segmentID. -/
theorem c10_legacy_upgrade (pts : List (ℚ × ℚ)) (hs : List (List (ℚ × ℚ)))
    (ed : Bool) (sid : Nat) (col : Option (List Nat)) (zz : Int)
    (hpts : pts ≠ []) :
    (model_post_init ⟨pts, hs, [], [], ed, sid, col, zz⟩).positiveRegions = [pts] ∧
    (model_post_init ⟨pts, hs, [], [], ed, sid, col, zz⟩).negativeRegions = hs ∧
    model_post_init ⟨pts, hs, [], [], ed, sid, col, zz⟩ =
      model_post_init ⟨[], [], [pts], hs, ed, sid, col, zz⟩ ∧
    (∀ (t : TaskInDB) (b : Bool) (tid : String),
      materialize_xyz_volume t
        [⟨[model_post_init ⟨pts, hs, [], [], ed, sid, col, zz⟩], tid⟩] b =
      materialize_xyz_volume t
        [⟨[model_post_init ⟨[], [], [pts], hs, ed, sid, col, zz⟩], tid⟩] b) ∧
    (∀ p q : Polygon, p.positiveRegions = q.positiveRegions →
      p.negativeRegions = q.negativeRegions → p.z = q.z →
      p.segmentID = q.segmentID →
      ∀ (t : TaskInDB) (ids : List Nat) (b : Bool) (g : Grid),
        applyPolygon t ids b g p = applyPolygon t ids b g q) := by
  have hleg : model_post_init ⟨pts, hs, [], [], ed, sid, col, zz⟩ =
      ⟨pts, hs, [pts], hs, ed, sid, col, zz⟩ := by
    rcases eq_or_ne hs [] with h | h <;> simp [model_post_init, hpts, h]
  have hnew : model_post_init ⟨[], [], [pts], hs, ed, sid, col, zz⟩ =
      ⟨pts, hs, [pts], hs, ed, sid, col, zz⟩ := by
    rcases eq_or_ne hs [] with h | h <;> simp [model_post_init, hpts, h]
  refine ⟨by rw [hleg], by rw [hleg], by rw [hleg, hnew], ?_, ?_⟩
  · intro t b tid
    rw [hleg, hnew]
  · intro p q h1 h2 h3 h4 t ids b g
    simp only [applyPolygon, h1, h2, h3, h4]

/-- Witness for c10_legacy_upgrade at a concrete legacy polygon. -/
theorem c10_legacy_upgrade_witness :
    (model_post_init ⟨[(0, 0), (1, 0), (1, 1)], [[(2, 2), (3, 2), (3, 3)]],
        [], [], false, 4, none, 0⟩).positiveRegions =
      [[(0, 0), (1, 0), (1, 1)]] ∧
    (model_post_init ⟨[(0, 0), (1, 0), (1, 1)], [[(2, 2), (3, 2), (3, 3)]],
        [], [], false, 4, none, 0⟩).negativeRegions =
      [[(2, 2), (3, 2), (3, 3)]] ∧
    model_post_init ⟨[(0, 0), (1, 0), (1, 1)], [[(2, 2), (3, 2), (3, 3)]],
        [], [], false, 4, none, 0⟩ =
      model_post_init ⟨[], [], [[(0, 0), (1, 0), (1, 1)]],
        [[(2, 2), (3, 2), (3, 3)]], false, 4, none, 0⟩ ∧
    (∀ (t : TaskInDB) (b : Bool) (tid : String),
      materialize_xyz_volume t
        [⟨[model_post_init ⟨[(0, 0), (1, 0), (1, 1)], [[(2, 2), (3, 2), (3, 3)]],
            [], [], false, 4, none, 0⟩], tid⟩] b =
      materialize_xyz_volume t
        [⟨[model_post_init ⟨[], [], [[(0, 0), (1, 0), (1, 1)]],
            [[(2, 2), (3, 2), (3, 3)]], false, 4, none, 0⟩], tid⟩] b) ∧
    (∀ p q : Polygon, p.positiveRegions = q.positiveRegions →
      p.negativeRegions = q.negativeRegions → p.z = q.z →
      p.segmentID = q.segmentID →
      ∀ (t : TaskInDB) (ids : List Nat) (b : Bool) (g : Grid),
        applyPolygon t ids b g p = applyPolygon t ids b g q) :=
  c10_legacy_upgrade [(0, 0), (1, 0), (1, 1)] [[(2, 2), (3, 2), (3, 3)]]
    false 4 none 0 (by simp)

/-- C4: in channel mode the grid's channel dimension has size equal to the
number of distinct segmentIDs across all polygons of all checkpoints; the
channel index list is those IDs sorted strictly ascending; and in the
finished grid every voxel of channel c holds either 0 or the c-th smallest
segmentID. -/
theorem c4_channel_mode (t : TaskInDB) (cps : List Checkpoint)
    (hnd : nondegenerate t) :
    ∃ g, materialize_xyz_volume t cps true = .ok g ∧
      g.channelCount = some (segmentIds cps).length ∧
      List.Sorted (· < ·) (segmentIds cps) ∧
      (∀ a : Nat, a ∈ segmentIds cps ↔ ∃ p ∈ allPolygons cps, p.segmentID = a) ∧
      ∀ (x y z : Int) (c : Nat), c < (segmentIds cps).length →
        g.data x y z c = 0 ∨ g.data x y z c = (segmentIds cps).getD c 0 := by
  refine ⟨materializeGrid t cps true, materialize_ok t cps true hnd, ?_, ?_, ?_, ?_⟩
  · exact (materializeGrid_shape t cps true).2.2.2
  · exact segmentIds_sorted cps
  · exact fun a => mem_segmentIds cps a
  · intro x y z c hc
    rw [materializeGrid_eq_foldl]
    refine foldl_channel_invariant t (segmentIds cps) (allPolygons cps)
      (initGrid t (segmentIds cps).length true) ?_ ?_ x y z c hc
    · intro p hp
      exact (mem_segmentIds cps p.segmentID).mpr ⟨p, hp, rfl⟩
    · intro x2 y2 z2 c2 hc2
      left
      rfl

/-- Witness for c4_channel_mode: two polygons with segmentIDs 5 and 9 on
taskW give channel list [5, 9]. -/
theorem c4_channel_mode_witness :
    segmentIds [⟨[poly5, poly9], "t"⟩] = [5, 9] ∧
    ∃ g, materialize_xyz_volume taskW [⟨[poly5, poly9], "t"⟩] true = .ok g ∧
      g.channelCount = some (segmentIds [⟨[poly5, poly9], "t"⟩]).length ∧
      List.Sorted (· < ·) (segmentIds [⟨[poly5, poly9], "t"⟩]) ∧
      (∀ a : Nat, a ∈ segmentIds [⟨[poly5, poly9], "t"⟩] ↔
        ∃ p ∈ allPolygons [⟨[poly5, poly9], "t"⟩], p.segmentID = a) ∧
      ∀ (x y z : Int) (c : Nat), c < (segmentIds [⟨[poly5, poly9], "t"⟩]).length →
        g.data x y z c = 0 ∨
        g.data x y z c = (segmentIds [⟨[poly5, poly9], "t"⟩]).getD c 0 :=
  ⟨by decide, c4_channel_mode taskW [⟨[poly5, poly9], "t"⟩] (by decide)⟩

end Claims

end BossyPaints
